import Mathlib

/-!
# Linera-CrossyChain: verification of the replay core

Shallow embedding of the repository's replay-verification core:

* `src/client/src/lib/SeededRandom.ts` — the Mulberry32 seeded generator;
* `src/client/src/lib/GameInputRecorder.ts` — the input recorder, codec and
  validator for the recording artifact;
* `src/client/src/components/CrossyGame.tsx` — the lane generation, the `move`
  queueing logic and the move-completion step of the animation loop.

Modelling conventions:

* JavaScript numbers are modelled as `ℚ` (exact rational arithmetic; all the
  arithmetic the embedded code performs on these values is exact in IEEE
  float64 for the magnitudes that occur, so `ℚ` is faithful there).
* The 32-bit bit patterns inside the Mulberry32 generator are modelled as
  `Nat` with explicit `% 2^32` at the points where JavaScript applies
  ToInt32/ToUint32 (the bitwise operators and `>>> 0`); `Math.imul` is
  multiplication mod `2^32` (the signed/unsigned reading of an operand does
  not change the resulting bit pattern).
* JavaScript array indexing `a[i]`, which yields `undefined` out of range, is
  modelled as `Option` (`jsIndex`).
* `throw new Error e` is modelled as `Except.error e`.
* `Math.random()` — the *unseeded* ambient generator that `CrossyGame.tsx`
  actually uses for lane generation — is modelled by passing each drawn value
  (a rational in `[0,1)`) explicitly as a parameter.
-/

/-- JavaScript array indexing `a[i]`: `undefined` (`none`) when `i` is negative
or at least the length. -/
def jsIndex {α : Type} (l : List α) (i : Int) : Option α :=
  if i < 0 then none else l.get? i.toNat

/-- JavaScript `Math.round x = ⌊x + 0.5⌋` (halves round toward `+∞`). -/
def jsRound (q : ℚ) : Int := Int.floor (q + 1/2)

namespace SeededRandom

/-- `2^32`, the modulus of every 32-bit bit-pattern operation. -/
def U32 : Nat := 4294967296

/-- `Math.imul a b`: 32-bit multiplication; as an unsigned bit pattern this is
multiplication mod `2^32`. -/
def imul (a b : Nat) : Nat := (a * b) % U32

/-- One step of the Mulberry32 generator (`SeededRandom.random`, lines 23–29 of
`SeededRandom.ts`).  Returns the new stored seed and the 32-bit output word.
`this.seed += 0x6D2B79F5` stores the sum as a plain JavaScript number without
truncation; the bitwise operators then act on its 32-bit pattern `% 2^32`. -/
def randomStep (state : Nat) : Nat × Nat :=
  let s := state + 0x6D2B79F5
  let m := s % U32
  let t1 := imul (m ^^^ (m >>> 15)) (m ||| 1)
  let t2 := t1 ^^^ ((t1 + imul (t1 ^^^ (t1 >>> 7)) (t1 ||| 61)) % U32)
  (s, (t2 ^^^ (t2 >>> 14)) % U32)

/-- `random()`: the 32-bit output word divided by `4294967296`, a rational in
`[0, 1)`. -/
def random (state : Nat) : Nat × ℚ :=
  let p := randomStep state
  (p.1, (p.2 : ℚ) / (U32 : ℚ))

/-- `randomInt(min, max) = Math.floor(this.random() * (max - min)) + min`
(lines 34–36 of `SeededRandom.ts`). -/
def randomInt (lo hi : Int) (state : Nat) : Nat × Int :=
  let p := random state
  (p.1, Int.floor (p.2 * ((hi : ℚ) - (lo : ℚ))) + lo)

/-- `randomElement(array) = array[this.randomInt(0, array.length)]`
(lines 41–43 of `SeededRandom.ts`): indexing out of range yields `undefined`. -/
def randomElement {α : Type} (array : List α) (state : Nat) : Nat × Option α :=
  let p := randomInt 0 (array.length : Int) state
  (p.1, jsIndex array p.2)

/-- The constructor / `reset`: `Math.abs(seed) >>> 0`. -/
def normalizeSeed (seed : Int) : Nat := seed.natAbs % U32

end SeededRandom

/-- One recorded input event (`InputEvent` in `GameInputRecorder.ts`).  The
`action` is kept as a raw string: at runtime the field is a string, and
`validate` checks it against the four known kinds. -/
structure InputEvent where
  timestamp : ℚ
  action : String
deriving DecidableEq, Repr

/-- The recording artifact (`GameRecording` in `GameInputRecorder.ts`). -/
structure GameRecording where
  seed : ℚ
  startTime : ℚ
  inputs : List InputEvent
  finalScore : ℚ
  duration : ℚ
  version : String
deriving DecidableEq, Repr

/-- The recorder's internal mutable fields (`GameInputRecorder`, lines 32–37). -/
structure RecorderState where
  recording : Bool
  seed : ℚ
  startTime : ℚ
  gameStartTimestamp : ℚ
  inputs : List InputEvent
deriving DecidableEq, Repr

namespace GameInputRecorder

/-- `start(seed?)` (lines 43–51): `this.seed = seed || Date.now()` — a supplied
seed of `0` is falsy in JavaScript, so it falls back to `Date.now()` exactly
like an absent seed.  `dateNow` is the sampled `Date.now()`, `perfNow` the
sampled `performance.now()`. -/
def start (seedArg : Option ℚ) (dateNow perfNow : ℚ) : RecorderState :=
  { recording := true
    seed := match seedArg with
            | some s => if s = 0 then dateNow else s
            | none => dateNow
    startTime := dateNow
    gameStartTimestamp := perfNow
    inputs := [] }

/-- `recordInput(action)` (lines 57–68): no-op while idle; otherwise appends
the action with `Math.round(performance.now() - gameStartTimestamp)`. -/
def recordInput (st : RecorderState) (action : String) (perfNow : ℚ) : RecorderState :=
  if st.recording then
    { st with inputs :=
        st.inputs ++ [⟨((jsRound (perfNow - st.gameStartTimestamp) : Int) : ℚ), action⟩] }
  else st

/-- `stop(finalScore)` (lines 74–94): throws `Recorder is not active` while
idle; otherwise freezes the buffer into an artifact and returns to idle. -/
def stop (st : RecorderState) (finalScore dateNow : ℚ) :
    Except String (GameRecording × RecorderState) :=
  if st.recording then
    .ok ({ seed := st.seed, startTime := st.startTime, inputs := st.inputs,
           finalScore := finalScore, duration := dateNow - st.startTime,
           version := "1.0.0" },
         { st with recording := false })
  else .error "Recorder is not active"

/-- A sequence of `recordInput` calls, each with its sampled monotonic-clock
value. -/
def runRecords (st : RecorderState) (events : List (String × ℚ)) : RecorderState :=
  events.foldl (fun s e => recordInput s e.1 e.2) st

/-- The input list a recording session produces from the raw events: each
clock sample is shifted by the session's `gameStartTimestamp` and rounded. -/
def recordedInputs (gameStart : ℚ) (events : List (String × ℚ)) : List InputEvent :=
  events.map (fun e => ⟨((jsRound (e.2 - gameStart) : Int) : ℚ), e.1⟩)

end GameInputRecorder

/-- The JSON value tree.  `serialize` is `JSON.stringify` and `deserialize` is
`JSON.parse` plus the explicit checks of `GameInputRecorder.deserialize`; the
text layer of `JSON.stringify`/`JSON.parse` is a bijection between this tree
(with field order preserved) and its rendering, so the codec is modelled on
the tree. -/
inductive Json where
  | null : Json
  | bool (b : Bool) : Json
  | num (q : ℚ) : Json
  | str (s : String) : Json
  | arr (elems : List Json) : Json
  | obj (fields : List (String × Json)) : Json

/-- Field lookup in a JSON object. -/
def jlookup (fields : List (String × Json)) (k : String) : Option Json :=
  (fields.find? (fun p => p.1 = k)).map Prod.snd

namespace GameInputRecorder

/-- `JSON.stringify` of one `InputEvent` (field order as declared). -/
def encodeInput (e : InputEvent) : Json :=
  .obj [("timestamp", .num e.timestamp), ("action", .str e.action)]

/-- `serialize(recording) = JSON.stringify(recording)` (lines 113–115).  Field
order is the declaration order of the object literal built by `stop`. -/
def serialize (r : GameRecording) : Json :=
  .obj [("seed", .num r.seed), ("startTime", .num r.startTime),
        ("inputs", .arr (r.inputs.map encodeInput)),
        ("finalScore", .num r.finalScore), ("duration", .num r.duration),
        ("version", .str r.version)]

/-- Structural decoding of one input event, the shape `JSON.parse` must
deliver for the `as GameRecording` cast to be honest. -/
def decodeInput : Json → Option InputEvent
  | .obj fields =>
    match jlookup fields "timestamp", jlookup fields "action" with
    | some (.num t), some (.str a) => some ⟨t, a⟩
    | _, _ => none
  | _ => none

/-- Structural decoding of the parsed `inputs` array, element by element. -/
def decodeInputs : List Json → Option (List InputEvent)
  | [] => some []
  | j :: rest =>
    match decodeInput j, decodeInputs rest with
    | some e, some es => some (e :: es)
    | _, _ => none

/-- `deserialize(data)` (lines 120–134): `JSON.parse(data) as GameRecording`
followed by the explicit check
`!recording.seed || !recording.inputs || !Array.isArray(recording.inputs)`,
which throws `Invalid recording format`.  The structural field decoding
models the `as GameRecording` typed shape (the source performs no further
per-field checks, but `serialize` always produces this full shape, so the
round trip is unaffected); the seed-falsy test (`seed = 0`) is the source's
explicit check. -/
def deserialize (j : Json) : Except String GameRecording :=
  match j with
  | .obj fields =>
    match jlookup fields "seed", jlookup fields "startTime", jlookup fields "inputs",
          jlookup fields "finalScore", jlookup fields "duration", jlookup fields "version" with
    | some (.num sd), some (.num stt), some (.arr ins),
      some (.num fsc), some (.num dur), some (.str v) =>
      match decodeInputs ins with
      | some inputs =>
        if sd = 0 then .error "Invalid recording format"
        else .ok { seed := sd, startTime := stt, inputs := inputs,
                   finalScore := fsc, duration := dur, version := v }
      | none => .error "Invalid recording format"
    | _, _, _, _, _, _ => .error "Invalid recording format"
  | _ => .error "Invalid recording format"

/-- The four known action kinds (`validActions`, line 170). -/
def validActions : List String := ["forward", "backward", "left", "right"]

/-- The loop of `validate` at lines 163–167: fails exactly when some adjacent
pair of inputs has a strictly decreasing timestamp. -/
def timestampsOrdered : List InputEvent → Bool
  | a :: b :: rest => (decide (¬ b.timestamp < a.timestamp)) && timestampsOrdered (b :: rest)
  | _ => true

/-- `validate(recording)` (lines 156–178): required fields truthy (`seed` and
`startTime` are numbers, falsy exactly when `0`; `inputs` is always present
on a structurally well-typed artifact), timestamps non-decreasing, every
action among the four known kinds.  Returns a `Bool`, never throws. -/
def validate (r : GameRecording) : Bool :=
  if r.seed = 0 then false
  else if r.startTime = 0 then false
  else timestampsOrdered r.inputs &&
       r.inputs.all (fun e => decide (e.action ∈ validActions))

end GameInputRecorder

/-- The board width in columns (`const columns = 17`, `CrossyGame.tsx`
line 20). -/
def columns : Int := 17

/-- The lane data the movement logic consults: the lane's `type` string and,
for forest lanes, the set of tree-occupied columns (`occupiedPositions`). -/
structure LaneData where
  kind : String
  occupiedPositions : List Int
deriving DecidableEq, Repr

/-- `const laneTypes = ["car", "truck", "forest"]` (line 24). -/
def laneTypes : List String := ["car", "truck", "forest"]

/-- The lane-kind draw of `Lane(index)` (line 299):
`index <= 0 ? "field" : laneTypes[Math.floor(Math.random() * laneTypes.length)]`.
`draw` is the value returned by the ambient unseeded `Math.random()` — the
function receives no seed and `CrossyGame.tsx` never instantiates
`SeededRandom`. -/
def laneTypeAt (index : Int) (draw : ℚ) : Option String :=
  if index ≤ 0 then some "field"
  else jsIndex laneTypes (Int.floor (draw * (laneTypes.length : ℚ)))

/-- The game-logic state mutated by `move` and the animation loop
(`CrossyGame.tsx` lines 380–387). -/
structure GameState where
  lanes : List LaneData
  currentLane : Int
  currentColumn : Int
  startMoving : Bool
  moves : List String
  stepStartTimestamp : Option ℚ
  gameOver : Bool
deriving DecidableEq, Repr

/-- JavaScript truthiness of `stepStartTimestamp`: falsy when `null` or `0`. -/
def jsFalsyTime : Option ℚ → Bool
  | none => true
  | some q => decide (q = 0)

/-- The `finalPositions` reduce of `move` (lines 431–440): the player's
lane/column after the whole pending-move queue would complete. -/
def finalPositions (st : GameState) : Int × Int :=
  st.moves.foldl (fun p mv =>
    if mv = "forward" then (p.1 + 1, p.2)
    else if mv = "backward" then (p.1 - 1, p.2)
    else if mv = "left" then (p.1, p.2 - 1)
    else if mv = "right" then (p.1, p.2 + 1)
    else p) (st.currentLane, st.currentColumn)

/-- The test `lanes[l].type === "forest" && lanes[l].occupiedPositions.has(c)`.
Out-of-range indexing would throw in JavaScript on the `.type` access; it is
unreachable in the states the component constructs (the board always holds
enough lanes ahead of the queued position), and is modelled as `false`. -/
def forestBlocked (lanes : List LaneData) (laneIdx col : Int) : Bool :=
  match jsIndex lanes laneIdx with
  | some ln => ln.kind = "forest" && ln.occupiedPositions.contains col
  | none => false

/-- Accepting a move: `if (!stepStartTimestamp) startMoving = true;` then
`moves.push(direction)`. -/
def queueMove (st : GameState) (direction : String) : GameState :=
  { st with
    startMoving := if jsFalsyTime st.stepStartTimestamp then true else st.startMoving
    moves := st.moves ++ [direction] }

/-- `move(direction)` (lines 428–476).  `newLane` stands for the lane that
`addLane()` would build for the `forward` case — its construction draws from
the ambient `Math.random()`, so it enters the model as an oracle parameter;
none of the rejection branches depend on it. -/
def move (newLane : LaneData) (st : GameState) (direction : String) : GameState :=
  if st.gameOver then st
  else
    let fp := finalPositions st
    if direction = "forward" then
      if forestBlocked st.lanes (fp.1 + 1) fp.2 then st
      else
        { st with
          startMoving := if jsFalsyTime st.stepStartTimestamp then true else st.startMoving
          lanes := st.lanes ++ [newLane]
          moves := st.moves ++ [direction] }
    else if direction = "backward" then
      if fp.1 = 0 then st
      else if forestBlocked st.lanes (fp.1 - 1) fp.2 then st
      else queueMove st direction
    else if direction = "left" then
      if fp.2 = 0 then st
      else if forestBlocked st.lanes fp.1 (fp.2 - 1) then st
      else queueMove st direction
    else if direction = "right" then
      if fp.2 = columns - 1 then st
      else if forestBlocked st.lanes fp.1 (fp.2 + 1) then st
      else queueMove st direction
    else { st with moves := st.moves ++ [direction] }

/-- The move-completion block of `animate` (lines 569–588), entered when
`moveDeltaTime > stepTime`: the head move's lane/column change lands
atomically, `forward`/`backward` report the *new* lane index through
`onScoreChange`, the head is shifted and the step clock is reset (cleared
when the queue empties).  The second component is the `onScoreChange`
argument, if any. -/
def animateStepComplete (st : GameState) (timestamp : ℚ) : GameState × Option Int :=
  let p : GameState × Option Int :=
    match st.moves.head? with
    | some mv =>
      if mv = "forward" then
        ({ st with currentLane := st.currentLane + 1 }, some (st.currentLane + 1))
      else if mv = "backward" then
        ({ st with currentLane := st.currentLane - 1 }, some (st.currentLane - 1))
      else if mv = "left" then
        ({ st with currentColumn := st.currentColumn - 1 }, none)
      else if mv = "right" then
        ({ st with currentColumn := st.currentColumn + 1 }, none)
      else (st, none)
    | none => (st, none)
  let rest := p.1.moves.tail
  ({ p.1 with
     moves := rest
     stepStartTimestamp := if rest.isEmpty then none else some timestamp }, p.2)

/-- Helper: `recordInput` never touches the `recording` flag. -/
theorem GameInputRecorder.recordInput_recording (st : RecorderState) (a : String) (t : ℚ) :
    (GameInputRecorder.recordInput st a t).recording = st.recording := by
  unfold GameInputRecorder.recordInput; split <;> rfl

/-- Helper: `recordInput` never touches the stored seed. -/
theorem GameInputRecorder.recordInput_seed (st : RecorderState) (a : String) (t : ℚ) :
    (GameInputRecorder.recordInput st a t).seed = st.seed := by
  unfold GameInputRecorder.recordInput; split <;> rfl

/-- Helper: a whole sequence of `recordInput` calls never touches the
`recording` flag. -/
theorem GameInputRecorder.runRecords_recording (st : RecorderState)
    (events : List (String × ℚ)) :
    (GameInputRecorder.runRecords st events).recording = st.recording := by
  induction events generalizing st with
  | nil => rfl
  | cons e es ih =>
      rw [GameInputRecorder.runRecords, List.foldl_cons]
      rw [show List.foldl _ _ es = GameInputRecorder.runRecords _ es from rfl, ih,
          GameInputRecorder.recordInput_recording]

/-- Helper: a whole sequence of `recordInput` calls never touches the seed. -/
theorem GameInputRecorder.runRecords_seed (st : RecorderState)
    (events : List (String × ℚ)) :
    (GameInputRecorder.runRecords st events).seed = st.seed := by
  induction events generalizing st with
  | nil => rfl
  | cons e es ih =>
      rw [GameInputRecorder.runRecords, List.foldl_cons]
      rw [show List.foldl _ _ es = GameInputRecorder.runRecords _ es from rfl, ih,
          GameInputRecorder.recordInput_seed]

/-- Helper: while the recorder is recording, a sequence of `recordInput` calls
appends exactly the shifted-and-rounded events to the buffer and leaves every
other field alone. -/
theorem GameInputRecorder.runRecords_closed_form (st : RecorderState)
    (events : List (String × ℚ)) (h : st.recording = true) :
    GameInputRecorder.runRecords st events =
      { st with inputs :=
          st.inputs ++ GameInputRecorder.recordedInputs st.gameStartTimestamp events } := by
  induction events generalizing st with
  | nil => simp [GameInputRecorder.runRecords, GameInputRecorder.recordedInputs]
  | cons e es ih =>
      rw [GameInputRecorder.runRecords, List.foldl_cons,
          show List.foldl _ _ es = GameInputRecorder.runRecords _ es from rfl]
      rw [GameInputRecorder.recordInput, if_pos h]
      rw [ih _ (by exact h)]
      simp [GameInputRecorder.recordedInputs]

/-- C7: a `left` attempted while the queued-final column is `0`, a `right`
attempted while that column is `columns - 1`, and a `backward` attempted while
the queued-final lane is `0`, all leave the game state (player lane/column and
pending-move queue included) unchanged. -/
theorem move_boundary_rejected (newLane : LaneData) (st : GameState) :
    ((finalPositions st).2 = 0 → move newLane st "left" = st) ∧
    ((finalPositions st).2 = columns - 1 → move newLane st "right" = st) ∧
    ((finalPositions st).1 = 0 → move newLane st "backward" = st) := by
  refine ⟨fun h => ?_, fun h => ?_, fun h => ?_⟩ <;>
    · by_cases hg : st.gameOver <;> simp [move, hg, h]

/-- C7 witness: at the initial state (lane 0, centre column 8) with the whole
queue empty, shifting the queued-final column to 0 rejects `left`. -/
theorem move_boundary_rejected_witness :
    (finalPositions { lanes := [⟨"field", []⟩], currentLane := 0, currentColumn := 0,
                      startMoving := false, moves := [], stepStartTimestamp := none,
                      gameOver := false }).2 = 0 ∧
    move ⟨"field", []⟩
      { lanes := [⟨"field", []⟩], currentLane := 0, currentColumn := 0,
        startMoving := false, moves := [], stepStartTimestamp := none,
        gameOver := false } "left" =
      { lanes := [⟨"field", []⟩], currentLane := 0, currentColumn := 0,
        startMoving := false, moves := [], stepStartTimestamp := none,
        gameOver := false } :=
  ⟨by decide,
   (move_boundary_rejected ⟨"field", []⟩
      { lanes := [⟨"field", []⟩], currentLane := 0, currentColumn := 0,
        startMoving := false, moves := [], stepStartTimestamp := none,
        gameOver := false }).1 (by decide)⟩

/-- C8: when the head of the queue completes, `backward` reports the new,
decremented lane index through `onScoreChange` (and `forward` the new,
incremented one) — not a retained high-water mark. -/
theorem completion_reports_new_lane (st : GameState) (ts : ℚ) :
    (st.moves.head? = some "backward" →
       (animateStepComplete st ts).1.currentLane = st.currentLane - 1 ∧
       (animateStepComplete st ts).2 = some (st.currentLane - 1)) ∧
    (st.moves.head? = some "forward" →
       (animateStepComplete st ts).1.currentLane = st.currentLane + 1 ∧
       (animateStepComplete st ts).2 = some (st.currentLane + 1)) := by
  constructor <;> · intro h; simp [animateStepComplete, h]

/-- C8 witness: completing a `backward` from lane 3 reports score 2. -/
theorem completion_reports_new_lane_witness :
    ({ lanes := [], currentLane := 3, currentColumn := 8, startMoving := false,
       moves := ["backward"], stepStartTimestamp := some 0,
       gameOver := false } : GameState).moves.head? = some "backward" ∧
    (animateStepComplete
      { lanes := [], currentLane := 3, currentColumn := 8, startMoving := false,
        moves := ["backward"], stepStartTimestamp := some 0,
        gameOver := false } 100).2 = some 2 :=
  ⟨by decide,
   ((completion_reports_new_lane
      { lanes := [], currentLane := 3, currentColumn := 8, startMoving := false,
        moves := ["backward"], stepStartTimestamp := some 0,
        gameOver := false } 100).1 (by decide)).2⟩

/-- C10: once `gameOver` is set, any further sequence of `move` calls (each
with whatever lane the ambient generator would have built) leaves the state —
pending-move queue and player lane/column included — unchanged. -/
theorem move_noop_after_gameOver (st : GameState) (h : st.gameOver = true)
    (steps : List (LaneData × String)) :
    steps.foldl (fun s p => move p.1 s p.2) st = st := by
  induction steps with
  | nil => rfl
  | cons p ps ih => simpa [move, h] using ih

/-- C10 witness: after a collision at lane 2, a burst of further inputs is a
no-op. -/
theorem move_noop_after_gameOver_witness :
    ([(⟨"car", []⟩, "forward"), (⟨"truck", []⟩, "left"),
      (⟨"forest", [3]⟩, "backward")] : List (LaneData × String)).foldl
        (fun s p => move p.1 s p.2)
        { lanes := [⟨"field", []⟩], currentLane := 2, currentColumn := 8,
          startMoving := false, moves := ["forward"], stepStartTimestamp := some 5,
          gameOver := true } =
      { lanes := [⟨"field", []⟩], currentLane := 2, currentColumn := 8,
        startMoving := false, moves := ["forward"], stepStartTimestamp := some 5,
        gameOver := true } :=
  move_noop_after_gameOver
    { lanes := [⟨"field", []⟩], currentLane := 2, currentColumn := 8,
      startMoving := false, moves := ["forward"], stepStartTimestamp := some 5,
      gameOver := true } (by decide)
    [(⟨"car", []⟩, "forward"), (⟨"truck", []⟩, "left"), (⟨"forest", [3]⟩, "backward")]

/-- C1: the lane layout is drawn from the ambient unseeded `Math.random()` —
`Lane(index)` takes no seed and `CrossyGame.tsx` never constructs a
`SeededRandom` — so under one and the same seed, two sessions whose ambient
draws differ (here `0` and `1/2`, both legitimate `Math.random()` outputs in
`[0,1)`) already disagree on the terrain kind of row 1: the layout is not a
function of the seed, contradicting the documented replay-determinism intent. -/
theorem laneGeneration_unseeded_counterexample :
    (0 : ℚ) ≤ 0 ∧ (0 : ℚ) < 1 ∧ (0 : ℚ) ≤ 1/2 ∧ (1/2 : ℚ) < 1 ∧
    laneTypeAt 1 0 = some "car" ∧ laneTypeAt 1 (1/2) = some "truck" ∧
    laneTypeAt 1 0 ≠ laneTypeAt 1 (1/2) := by
  have hcar : laneTypeAt 1 0 = some "car" := by
    norm_num [laneTypeAt, jsIndex, laneTypes]
  have htruck : laneTypeAt 1 (1/2) = some "truck" := by
    have hfl : Int.floor ((1/2 : ℚ) * 3) = 1 := by
      norm_num [Int.floor_eq_iff]
    norm_num [laneTypeAt, jsIndex, laneTypes, hfl]
  refine ⟨by norm_num, by norm_num, by norm_num, by norm_num, hcar, htruck, ?_⟩
  rw [hcar, htruck]; decide

/-- C3 counterexample: `start` with the explicitly supplied seed `0` does not
assign seed `0` — `seed || Date.now()` sees `0` as falsy and falls back to the
sampled `Date.now()` (here `12345`). -/
theorem start_seed_zero_fallback :
    (GameInputRecorder.start (some 0) 12345 0).seed = 12345 ∧ (12345 : ℚ) ≠ 0 := by
  constructor <;> decide

/-- C3 (amended): for every explicitly supplied *nonzero* seed, `start`
assigns exactly that seed, and the artifact returned by the subsequent `stop`
carries it unchanged; a supplied seed of `0` behaves like an absent one
(time-derived). -/
theorem start_nonzero_seed_carried (s : ℚ) (hs : s ≠ 0)
    (dateNow perfNow : ℚ) (events : List (String × ℚ)) (finalScore dateNow2 : ℚ) :
    (GameInputRecorder.start (some s) dateNow perfNow).seed = s ∧
    ∃ r st2,
      GameInputRecorder.stop
        (GameInputRecorder.runRecords (GameInputRecorder.start (some s) dateNow perfNow) events)
        finalScore dateNow2 = .ok (r, st2) ∧ r.seed = s := by
  have hseed : (GameInputRecorder.start (some s) dateNow perfNow).seed = s := by
    simp [GameInputRecorder.start, hs]
  have h1 : (GameInputRecorder.runRecords
      (GameInputRecorder.start (some s) dateNow perfNow) events).recording = true := by
    rw [GameInputRecorder.runRecords_recording]; rfl
  have h2 : (GameInputRecorder.runRecords
      (GameInputRecorder.start (some s) dateNow perfNow) events).seed = s := by
    rw [GameInputRecorder.runRecords_seed]; exact hseed
  refine ⟨hseed, ?_⟩
  set A := GameInputRecorder.runRecords
      (GameInputRecorder.start (some s) dateNow perfNow) events with hA
  exact ⟨{ seed := A.seed, startTime := A.startTime, inputs := A.inputs,
           finalScore := finalScore, duration := dateNow2 - A.startTime,
           version := "1.0.0" },
         { A with recording := false },
         by unfold GameInputRecorder.stop; rw [if_pos h1],
         h2⟩

/-- Helper: `Math.round` is monotone, so the per-event rounding preserves
ordering. -/
theorem jsRound_mono {a b : ℚ} (h : a ≤ b) : jsRound a ≤ jsRound b := by
  unfold jsRound
  exact Int.floor_le_floor (by linarith)

/-- Helper: stopping a full session (`start`, a sequence of `recordInput`
calls, `stop`) returns the artifact holding exactly the recorded events. -/
theorem GameInputRecorder.stop_session_eq (seedArg : Option ℚ) (dn0 perf : ℚ)
    (events : List (String × ℚ)) (fs dn2 : ℚ) :
    GameInputRecorder.stop
      (GameInputRecorder.runRecords (GameInputRecorder.start seedArg dn0 perf) events)
      fs dn2 =
      .ok ({ seed := (GameInputRecorder.start seedArg dn0 perf).seed, startTime := dn0,
             inputs := GameInputRecorder.recordedInputs perf events,
             finalScore := fs, duration := dn2 - dn0, version := "1.0.0" },
           { recording := false, seed := (GameInputRecorder.start seedArg dn0 perf).seed,
             startTime := dn0, gameStartTimestamp := perf,
             inputs := GameInputRecorder.recordedInputs perf events }) := by
  rw [GameInputRecorder.runRecords_closed_form _ _ rfl]
  simp [GameInputRecorder.stop, GameInputRecorder.start]

/-- C4: `stop` fails with the `Recorder is not active` error exactly when the
recorder is idle; while recording it returns the artifact carrying the
recorder's seed, start time and buffered inputs with the supplied final score,
and leaves the recorder idle.  For a whole session, the buffer holds exactly
the events recorded since `start`. -/
theorem stop_characterization :
    (∀ (st : RecorderState) (fs dn : ℚ),
      (GameInputRecorder.stop st fs dn = .error "Recorder is not active" ↔
        st.recording = false) ∧
      (st.recording = true →
        GameInputRecorder.stop st fs dn =
          .ok ({ seed := st.seed, startTime := st.startTime, inputs := st.inputs,
                 finalScore := fs, duration := dn - st.startTime, version := "1.0.0" },
               { st with recording := false }))) ∧
    (∀ (seedArg : Option ℚ) (dn0 perf : ℚ) (events : List (String × ℚ)) (fs dn2 : ℚ),
      GameInputRecorder.stop
        (GameInputRecorder.runRecords (GameInputRecorder.start seedArg dn0 perf) events)
        fs dn2 =
        .ok ({ seed := (GameInputRecorder.start seedArg dn0 perf).seed, startTime := dn0,
               inputs := GameInputRecorder.recordedInputs perf events,
               finalScore := fs, duration := dn2 - dn0, version := "1.0.0" },
             { recording := false, seed := (GameInputRecorder.start seedArg dn0 perf).seed,
               startTime := dn0, gameStartTimestamp := perf,
               inputs := GameInputRecorder.recordedInputs perf events })) := by
  constructor
  · intro st fs dn
    constructor
    · by_cases hr : st.recording <;> simp [GameInputRecorder.stop, hr]
    · intro hr; simp [GameInputRecorder.stop, hr]
  · intro seedArg dn0 perf events fs dn2
    exact GameInputRecorder.stop_session_eq seedArg dn0 perf events fs dn2

/-- C4 witness: stopping an idle recorder raises the inactive-recorder error;
stopping a live one freezes the buffer. -/
theorem stop_characterization_witness :
    GameInputRecorder.stop
      { recording := false, seed := 7, startTime := 1, gameStartTimestamp := 0,
        inputs := [] } 3 10 = .error "Recorder is not active" ∧
    GameInputRecorder.stop
      { recording := true, seed := 7, startTime := 1, gameStartTimestamp := 0,
        inputs := [⟨4, "forward"⟩] } 3 10 =
      .ok ({ seed := 7, startTime := 1, inputs := [⟨4, "forward"⟩], finalScore := 3,
             duration := 9, version := "1.0.0" },
           { recording := false, seed := 7, startTime := 1, gameStartTimestamp := 0,
             inputs := [⟨4, "forward"⟩] }) :=
  ⟨(stop_characterization.1
      { recording := false, seed := 7, startTime := 1, gameStartTimestamp := 0,
        inputs := [] } 3 10).1.mpr rfl,
   by
     have h := (stop_characterization.1
       { recording := true, seed := 7, startTime := 1, gameStartTimestamp := 0,
         inputs := [⟨4, "forward"⟩] } 3 10).2 rfl
     rw [h]; norm_num⟩

/-- C5: if the monotonic-clock samples of the recorded events are
non-decreasing, the artifact produced by `stop` has inputs non-decreasing in
timestamp — the per-event `Math.round` preserves the ordering. -/
theorem recorder_inputs_monotone (seedArg : Option ℚ) (dn0 perf : ℚ)
    (events : List (String × ℚ)) (fs dn2 : ℚ)
    (hmono : List.Chain' (· ≤ ·) (events.map Prod.snd)) :
    ∃ r st2,
      GameInputRecorder.stop
        (GameInputRecorder.runRecords (GameInputRecorder.start seedArg dn0 perf) events)
        fs dn2 = .ok (r, st2) ∧
      List.Chain' (· ≤ ·) (r.inputs.map InputEvent.timestamp) := by
  have hstop := GameInputRecorder.stop_session_eq seedArg dn0 perf events fs dn2
  refine ⟨_, _, hstop, ?_⟩
  show List.Chain' (· ≤ ·)
    ((GameInputRecorder.recordedInputs perf events).map InputEvent.timestamp)
  rw [GameInputRecorder.recordedInputs, List.map_map, List.chain'_map]
  rw [List.chain'_map] at hmono
  refine hmono.imp ?_
  intro a b hab
  have h := jsRound_mono (a := a.2 - perf) (b := b.2 - perf) (by linarith)
  simpa using Int.cast_le.mpr h

/-- C5 witness: three events at non-decreasing clock samples yield an artifact
with non-decreasing timestamps. -/
theorem recorder_inputs_monotone_witness :
    ∃ r st2,
      GameInputRecorder.stop
        (GameInputRecorder.runRecords (GameInputRecorder.start none 0 0)
          [("forward", 10), ("left", 10), ("right", 25)]) 5 100 = .ok (r, st2) ∧
      List.Chain' (· ≤ ·) (r.inputs.map InputEvent.timestamp) :=
  recorder_inputs_monotone none 0 0 [("forward", 10), ("left", 10), ("right", 25)] 5 100
    (by norm_num [List.chain'_cons])

/-- Helper: the timestamp loop of `validate` succeeds exactly when adjacent
timestamps are non-decreasing. -/
theorem GameInputRecorder.timestampsOrdered_iff (l : List InputEvent) :
    GameInputRecorder.timestampsOrdered l = true ↔
      List.Chain' (fun a b => a.timestamp ≤ b.timestamp) l := by
  induction l with
  | nil => simp [GameInputRecorder.timestampsOrdered]
  | cons a l ih =>
    cases l with
    | nil => simp [GameInputRecorder.timestampsOrdered]
    | cons b m =>
      rw [GameInputRecorder.timestampsOrdered, List.chain'_cons]
      simp [ih, not_lt]

/-- C6: `validate` returns `true` exactly when the required fields are truthy,
the inputs are non-decreasing in timestamp, and every action is one of the
four known kinds; in particular an adjacent strictly decreasing timestamp
pair, or an unknown action string, makes it return `false` (it is a total
`Bool`-valued check, never an exception). -/
theorem validate_iff (r : GameRecording) :
    GameInputRecorder.validate r = true ↔
      (r.seed ≠ 0 ∧ r.startTime ≠ 0 ∧
       List.Chain' (fun a b => a.timestamp ≤ b.timestamp) r.inputs ∧
       ∀ e ∈ r.inputs, e.action ∈ GameInputRecorder.validActions) := by
  unfold GameInputRecorder.validate
  by_cases h1 : r.seed = 0
  · simp [h1]
  · by_cases h2 : r.startTime = 0
    · simp [h1, h2]
    · simp [h1, h2, GameInputRecorder.timestampsOrdered_iff, List.all_eq_true]

/-- C6 witness: a decreasing pair makes `validate` return `false`, an unknown
action makes it return `false`, and a fully well-formed artifact passes. -/
theorem validate_iff_witness :
    GameInputRecorder.validate
      { seed := 42, startTime := 1000, inputs := [⟨5, "forward"⟩, ⟨2, "left"⟩],
        finalScore := 1, duration := 500, version := "1.0.0" } = false ∧
    GameInputRecorder.validate
      { seed := 42, startTime := 1000, inputs := [⟨5, "jump"⟩],
        finalScore := 1, duration := 500, version := "1.0.0" } = false ∧
    GameInputRecorder.validate
      { seed := 42, startTime := 1000, inputs := [⟨0, "forward"⟩, ⟨16, "left"⟩],
        finalScore := 1, duration := 500, version := "1.0.0" } = true :=
  ⟨by
    rw [← Bool.not_eq_true]
    intro htrue
    obtain ⟨_, _, hchain, _⟩ := (validate_iff
      { seed := 42, startTime := 1000, inputs := [⟨5, "forward"⟩, ⟨2, "left"⟩],
        finalScore := 1, duration := 500, version := "1.0.0" }).mp htrue
    rw [List.chain'_cons] at hchain
    norm_num at hchain,
   by
    rw [← Bool.not_eq_true]
    intro htrue
    obtain ⟨_, _, _, hall⟩ := (validate_iff
      { seed := 42, startTime := 1000, inputs := [⟨5, "jump"⟩],
        finalScore := 1, duration := 500, version := "1.0.0" }).mp htrue
    have h := hall ⟨5, "jump"⟩ (by simp)
    simp [GameInputRecorder.validActions] at h,
   (validate_iff
      { seed := 42, startTime := 1000, inputs := [⟨0, "forward"⟩, ⟨16, "left"⟩],
        finalScore := 1, duration := 500, version := "1.0.0" }).mpr
     ⟨by norm_num, by norm_num,
      by rw [List.chain'_cons]; refine ⟨by norm_num, List.chain'_singleton _⟩,
      by
        intro e he
        rcases List.mem_cons.mp he with h | h
        · subst h; simp [GameInputRecorder.validActions]
        · rcases List.mem_singleton.mp h with h2
          subst h2; simp [GameInputRecorder.validActions]⟩⟩

/-- Helper: decoding inverts encoding on one input event. -/
theorem GameInputRecorder.decodeInput_encodeInput (e : InputEvent) :
    GameInputRecorder.decodeInput (GameInputRecorder.encodeInput e) = some e := by
  simp [GameInputRecorder.decodeInput, GameInputRecorder.encodeInput, jlookup, List.find?]

/-- Helper: decoding inverts encoding on a whole input list. -/
theorem GameInputRecorder.decodeInputs_encode (l : List InputEvent) :
    GameInputRecorder.decodeInputs (l.map GameInputRecorder.encodeInput) = some l := by
  induction l with
  | nil => rfl
  | cons e es ih =>
      rw [List.map_cons, GameInputRecorder.decodeInputs,
          GameInputRecorder.decodeInput_encodeInput, ih]

/-- C2: for every artifact that passes `validate` (so in particular its seed
is truthy), `deserialize ∘ serialize` is the identity, field for field,
including the order and the timestamps of every input event. -/
theorem deserialize_serialize_roundtrip (r : GameRecording)
    (hv : GameInputRecorder.validate r = true) :
    GameInputRecorder.deserialize (GameInputRecorder.serialize r) = .ok r := by
  have hseed : r.seed ≠ 0 := by
    intro h0
    rw [GameInputRecorder.validate, if_pos h0] at hv
    exact Bool.false_ne_true hv
  unfold GameInputRecorder.serialize GameInputRecorder.deserialize
  simp [jlookup, List.find?, GameInputRecorder.decodeInputs_encode, hseed]

/-- C2 witness: a concrete valid two-event artifact survives the round trip. -/
theorem deserialize_serialize_roundtrip_witness :
    GameInputRecorder.validate
      { seed := 42, startTime := 1700000000000, inputs := [⟨0, "forward"⟩, ⟨180, "right"⟩],
        finalScore := 2, duration := 4200, version := "1.0.0" } = true ∧
    GameInputRecorder.deserialize (GameInputRecorder.serialize
      { seed := 42, startTime := 1700000000000, inputs := [⟨0, "forward"⟩, ⟨180, "right"⟩],
        finalScore := 2, duration := 4200, version := "1.0.0" }) =
      .ok { seed := 42, startTime := 1700000000000,
            inputs := [⟨0, "forward"⟩, ⟨180, "right"⟩],
            finalScore := 2, duration := 4200, version := "1.0.0" } :=
  ⟨by decide,
   deserialize_serialize_roundtrip
     { seed := 42, startTime := 1700000000000, inputs := [⟨0, "forward"⟩, ⟨180, "right"⟩],
       finalScore := 2, duration := 4200, version := "1.0.0" } (by decide)⟩

/-- Helper: the Mulberry32 output word is a 32-bit value. -/
theorem SeededRandom.randomStep_lt (state : Nat) :
    (SeededRandom.randomStep state).2 < SeededRandom.U32 := by
  have h : (0:Nat) < SeededRandom.U32 := by norm_num [SeededRandom.U32]
  simp only [SeededRandom.randomStep]
  exact Nat.mod_lt _ h

/-- Helper: `random()` lands in `[0, 1)`. -/
theorem SeededRandom.random_mem_Ico (state : Nat) :
    0 ≤ (SeededRandom.random state).2 ∧ (SeededRandom.random state).2 < 1 := by
  have hU : (0:ℚ) < (SeededRandom.U32 : ℚ) := by norm_num [SeededRandom.U32]
  constructor
  · exact div_nonneg (Nat.cast_nonneg _) (le_of_lt hU)
  · rw [SeededRandom.random, div_lt_one hU]
    exact_mod_cast SeededRandom.randomStep_lt state

/-- Helper: `randomInt(0, n)` lands in `[0, n)` for positive `n`. -/
theorem SeededRandom.randomInt_zero_mem (state : Nat) (n : Nat) (hn : 0 < n) :
    0 ≤ (SeededRandom.randomInt 0 (n : Int) state).2 ∧
    (SeededRandom.randomInt 0 (n : Int) state).2 < (n : Int) := by
  obtain ⟨hq0, hq1⟩ := SeededRandom.random_mem_Ico state
  have hn' : (0:ℚ) < (n : ℚ) := by exact_mod_cast hn
  rw [SeededRandom.randomInt]
  constructor
  · have hmul : 0 ≤ (SeededRandom.random state).2 * (((n : Int) : ℚ) - ((0 : Int) : ℚ)) := by
      push_cast
      rw [sub_zero]
      exact mul_nonneg hq0 (le_of_lt hn')
    simpa using Int.floor_nonneg.mpr hmul
  · have hmul : (SeededRandom.random state).2 * (((n : Int) : ℚ) - ((0 : Int) : ℚ)) <
        (((n : Nat) : Int) : ℚ) := by
      push_cast
      rw [sub_zero]
      exact mul_lt_of_lt_one_left hn' hq1
    simpa using Int.floor_lt.mpr hmul

/-- C9: on a non-empty array, `randomElement` returns the element at an index
in `[0, array.length)`; on the empty array the drawn index `0` is out of
bounds, so the result is `undefined` (`none`). -/
theorem randomElement_spec {α : Type} (state : Nat) (arr : List α) :
    (arr ≠ [] → ∃ i, ∃ h : i < arr.length,
      (SeededRandom.randomElement arr state).2 = some (arr.get ⟨i, h⟩)) ∧
    (arr = [] → (SeededRandom.randomElement arr state).2 = none) := by
  constructor
  · intro hne
    have hlen : 0 < arr.length := List.length_pos.mpr hne
    obtain ⟨h0, hlt⟩ := SeededRandom.randomInt_zero_mem state arr.length hlen
    have htoNat : (SeededRandom.randomInt 0 (arr.length : Int) state).2.toNat < arr.length := by
      omega
    refine ⟨(SeededRandom.randomInt 0 (arr.length : Int) state).2.toNat, htoNat, ?_⟩
    rw [SeededRandom.randomElement]
    simp only [jsIndex, not_lt.mpr h0, if_neg (not_lt.mpr h0)]
    exact List.get?_eq_get htoNat
  · intro he
    subst he
    rw [SeededRandom.randomElement, SeededRandom.randomInt]
    simp [jsIndex]

/-- C9 witness: a two-element array yields one of its elements; the empty
array yields `none`. -/
theorem randomElement_spec_witness :
    (∃ i, ∃ h : i < (["x", "y"] : List String).length,
      (SeededRandom.randomElement ["x", "y"] 0).2 = some ((["x", "y"] : List String).get ⟨i, h⟩)) ∧
    (SeededRandom.randomElement ([] : List String) 0).2 = none :=
  ⟨(randomElement_spec 0 ["x", "y"]).1 (by decide),
   (randomElement_spec 0 ([] : List String)).2 rfl⟩

/-- C3 witness: seed `42` survives a session with one recorded input. -/
theorem start_nonzero_seed_carried_witness :
    (42 : ℚ) ≠ 0 ∧
    (GameInputRecorder.start (some 42) 1000 50).seed = 42 := by
  refine ⟨by decide, (start_nonzero_seed_carried 42 (by decide) 1000 50
    [("forward", 80)] 3 2000).1⟩
